import Mathlib

/-!
Verification of the cluster reconciliation controller of the
provider-aws-pcluster repository (package `cluster`,
`internal/controller/cluster`).  The embedding below follows the current
version of the controller source: the one with the dry-run up-to-date
probe (`isUpToDate`), the structured logger and the four-way error
classifier, which is the version exercised by the repository's tests.
Strings are embedded as Lean `String`, the JSON decoders of the standard
library are abstracted as the per-schema projections of `RawOutput`, and
process/filesystem effects are made explicit (event lists, explicit
global-environment state).
-/

namespace AwsPcluster

/-- The single-quote character, used by the pcluster CLI message sentinels. -/
def sqChar : Char := Char.ofNat 39

/-- The single-quote character as a one-character string. -/
def sq : String := String.singleton sqChar

/-- `PClusterStatus` is a string type alias in the source. -/
abbrev PClusterStatus := String

def CreateInProgress : PClusterStatus := "CREATE_IN_PROGRESS"

def CreateFailed : PClusterStatus := "CREATE_FAILED"

def CreateComplete : PClusterStatus := "CREATE_COMPLETE"

def DeleteInProgress : PClusterStatus := "DELETE_IN_PROGRESS"

def DeleteFailed : PClusterStatus := "DELETE_FAILED"

def DeleteComplete : PClusterStatus := "DELETE_COMPLETE"

def UpdateInProgress : PClusterStatus := "UPDATE_IN_PROGRESS"

def UpdateComplete : PClusterStatus := "UPDATE_COMPLETE"

def UpdateFailed : PClusterStatus := "UPDATE_FAILED"

/-- Fixed name of the configuration file written into the workspace. -/
def clusterConfigFileName : String := "cluster-config.yaml"

/-- Sentinel: the tool reports no configuration changes (exact match). -/
def errPclusterCliNoChange : String :=
  "Bad Request: No changes found in your cluster configuration."

/-- Sentinel: dry run would have succeeded (exact match). -/
def errPClusterCliDryRun : String :=
  "Request would have succeeded, but DryRun flag is set."

/-- Sentinel: an update is already in progress (matched as a message prefix). -/
def errPClusterCliInProgress : String :=
  "Cannot execute update while stack is in"

/-- `errStatus` is a string type alias in the source. -/
abbrev ErrStatus := String

def errStatusNotFound : ErrStatus := "clusterNotFound"

def errStatusEmpty : ErrStatus := "emptyMessage"

def errStatusUpToDate : ErrStatus := "clusterUpToDate"

def errStatusNotUpToDate : ErrStatus := "clusterNotUpToDate"

/-- The absence message built by `getErrorStatus` with `fmt.Sprintf`:
`Cluster '<name>' does not exist`. -/
def notFoundMsg (clusterName : String) : String :=
  "Cluster " ++ sq ++ clusterName ++ sq ++ " does not exist"

/-- Go `strings.HasPrefix s p`: `s` begins with `p`. -/
def beginsWith (s p : String) : Bool :=
  p.data.isPrefixOf s.data

/-- The error payload schema `errorOutput`: `{"message": string}`. -/
structure ErrorOutput where
  message : String
deriving Repr, DecidableEq

/-- `SchedulerType` as used by the controller (`scheduler.type`). -/
structure SchedulerType where
  schedulerType : String
deriving Repr, DecidableEq

/-- `OutputCluster`: the cluster envelope shared by the CLI output schemas. -/
structure OutputCluster where
  clusterName : String
  cloudformationStackStatus : String
  cloudformationStackArn : String
  clusterStatus : String
  region : String
  version : String
  scheduler : SchedulerType
deriving Repr, DecidableEq

/-- `DescribeClusterOutput`, reduced to the fields the controller reads:
the embedded `OutputCluster` filled by the flat unmarshal of the describe
payload (the controller decodes the same bytes twice; both decodes must
succeed for `Observe` to proceed, which the `asDescribe` projection of
`RawOutput` models as a single decode). -/
structure DescribeClusterOutput where
  outputCluster : OutputCluster
deriving Repr, DecidableEq

/-- `CreateClusterOutput`: `{"cluster": OutputCluster}`. -/
structure CreateClusterOutput where
  cluster : OutputCluster
deriving Repr, DecidableEq

/-- `UpdateClusterOutput`: `{"cluster": OutputCluster}` plus the change set
whose length the controller logs. -/
structure UpdateClusterOutput where
  cluster : OutputCluster
  changeSet : List String
deriving Repr, DecidableEq

/-- `DeleteClusterOutput`: `{"cluster": OutputCluster}`. -/
structure DeleteClusterOutput where
  cluster : OutputCluster
deriving Repr, DecidableEq

/-- Abstraction of the raw combined-output bytes of one CLI invocation,
carrying the results of applying the standard-library JSON decoder for
each schema the controller may decode the bytes with (`none` models
`json.Unmarshal` returning an error), together with the `len(output) > 0`
observation the controller makes. -/
structure RawOutput where
  nonEmpty : Bool
  asError : Option ErrorOutput
  asDescribe : Option DescribeClusterOutput
  asCreate : Option CreateClusterOutput
  asUpdate : Option UpdateClusterOutput
  asDelete : Option DeleteClusterOutput
deriving Repr, DecidableEq

/-- The `[]byte{}` value returned on early failure. -/
def RawOutput.empty : RawOutput :=
  { nonEmpty := false, asError := none, asDescribe := none, asCreate := none,
    asUpdate := none, asDelete := none }

/-- Result of one external command: combined output plus the termination
error (`some` exactly when the process exited non-zero or failed to
start). -/
structure CmdResult where
  output : RawOutput
  err : Option String
deriving Repr, DecidableEq

/-- `ClusterParameters` (`spec.forProvider`). -/
structure ClusterParameters where
  region : String
  clusterConfiguration : String
deriving Repr, DecidableEq

/-- `ClusterObservation` (`status.atProvider`): the fields `setStatus`
writes plus `lastUpdatedTime`, which it leaves alone. -/
structure ClusterObservation where
  clusterName : String
  cloudformationStackArn : String
  clusterStatus : String
  lastUpdatedTime : String
  scheduler : SchedulerType
deriving Repr, DecidableEq

/-- The Ready condition of the managed resource, as driven by
`SetConditions(xpv1.Available())` / `SetConditions(xpv1.Unavailable())`. -/
inductive ReadyCondition where
  | available
  | unavailable
  | unset
deriving Repr, DecidableEq

/-- The managed `Cluster` resource: its immutable name, desired spec,
observed status and Ready condition. -/
structure Cluster where
  name : String
  forProvider : ClusterParameters
  atProvider : ClusterObservation
  ready : ReadyCondition
deriving Repr, DecidableEq

/-- `managed.ExternalObservation`, restricted to the fields the controller
sets. -/
structure ExternalObservation where
  resourceExists : Bool := false
  resourceUpToDate : Bool := false
deriving Repr, DecidableEq

/-- `setStatus`: writes the four lifecycle fields of the decoded
`OutputCluster` onto `status.atProvider`. -/
def setStatus (output : OutputCluster) (cluster : Cluster) : Cluster :=
  { cluster with atProvider :=
      { cluster.atProvider with
          clusterStatus := output.clusterStatus
          cloudformationStackArn := output.cloudformationStackArn
          scheduler := { schedulerType := output.scheduler.schedulerType }
          clusterName := output.clusterName } }

/-- `getErrorStatus(cmdOutput, clusterName)`: takes the decoded error
payload (`none` when `json.Unmarshal` fails) and mirrors the Go
multi-return `(errStatus, error)`; the zero value `""` is returned with
the error on decode failure. -/
def getErrorStatus (cmdOutput : Option ErrorOutput) (clusterName : String) :
    ErrStatus × Option String :=
  match cmdOutput with
  | none => ("", some "json unmarshal error")
  | some pErr =>
    let msg := pErr.message
    if beginsWith msg (notFoundMsg clusterName) then
      (errStatusNotFound, none)
    else if msg = errPclusterCliNoChange ∨ beginsWith msg errPClusterCliInProgress then
      (errStatusUpToDate, none)
    else if msg = errPClusterCliDryRun then
      (errStatusNotUpToDate, none)
    else
      (errStatusEmpty, none)

/-- The tail of `isUpToDate` once `execute` has returned `res`: classify
the payload on a non-zero exit with non-empty output, otherwise return
`false` with whatever error (possibly none) the run produced. -/
def isUpToDateRun (res : CmdResult) (name : String) : Bool × Option String :=
  if res.err.isSome && res.output.nonEmpty then
    match getErrorStatus res.output.asError name with
    | (_, some sErr) => (false, some sErr)
    | (status, none) =>
      if status = errStatusUpToDate then (true, none) else (false, none)
  else
    (false, res.err)

/-- The external inputs `Observe` consumes: the result of the
`describe-cluster` command and the result of the dry-run `update-cluster`
probe (as returned by `execute`). -/
structure ObserveEnv where
  describe : CmdResult
  probe : CmdResult
deriving Repr, DecidableEq

/-- `Observe`: describe the cluster; on a command error classify the
payload (`NotFound` means a benign non-existence observation, anything
else propagates); on success decode the payload, run the up-to-date
probe, map the lifecycle status through the switch and write the decoded
status fields back.  The second component records whether the up-to-date
probe was invoked. -/
def Observe (env : ObserveEnv) (cr : Cluster) :
    Except String (ExternalObservation × Cluster) × Bool :=
  match env.describe.err with
  | some e =>
    if (getErrorStatus env.describe.output.asError cr.name).1 = errStatusNotFound then
      (.ok ({ resourceExists := false }, cr), false)
    else
      (.error ("failed to run pcluster command: " ++ e), false)
  | none =>
    match env.describe.output.asDescribe with
    | none => (.error "failed to unmarshal describe response", false)
    | some describeOutput =>
      match isUpToDateRun env.probe cr.name with
      | (_, some e) =>
        (.error ("could not determine if resource is up-to-date: " ++ e), true)
      | (u, none) =>
        let st := describeOutput.outputCluster.clusterStatus
        let eo : ExternalObservation := { resourceUpToDate := u }
        let step : ExternalObservation × Cluster :=
          if st = CreateInProgress ∨ st = UpdateInProgress ∨ st = DeleteInProgress then
            ({ eo with resourceExists := true }, cr)
          else if st = CreateComplete ∨ st = UpdateComplete then
            ({ eo with resourceExists := true }, { cr with ready := .available })
          else if st = CreateFailed ∨ st = DeleteComplete then
            ({ eo with resourceExists := false }, cr)
          else if st = UpdateFailed ∨ st = DeleteFailed then
            ({ eo with resourceExists := true }, { cr with ready := .unavailable })
          else
            (eo, cr)
        (.ok (step.1, setStatus describeOutput.outputCluster step.2), true)

/-- `Create` after `execute` has returned `x`: propagate the error
verbatim, or decode the create schema and write the status back. -/
def CreateOp (x : RawOutput × Option String) (cr : Cluster) : Except String Cluster :=
  match x.2 with
  | some e => .error e
  | none =>
    match x.1.asCreate with
    | none => .error "failed to unmarshal create output"
    | some createOutput => .ok (setStatus createOutput.cluster cr)

/-- `Update` after `execute` has returned `x`: propagate the error
verbatim, or decode the update schema; the decoded cluster is only used
for logging the change-set length, so the resource status is untouched. -/
def UpdateOp (x : RawOutput × Option String) (cr : Cluster) : Except String Cluster :=
  match x.2 with
  | some e => .error e
  | none =>
    match x.1.asUpdate with
    | none => .error "failed to unmarshal update output"
    | some _ => .ok cr

/-- `Delete` after `execute` has returned `x`: wrap and propagate the
error, or decode the delete schema; the decoded value is only logged, so
the resource status is untouched. -/
def DeleteOp (x : RawOutput × Option String) (cr : Cluster) : Except String Cluster :=
  match x.2 with
  | some e => .error ("failed to delete using pcluster cli: " ++ e)
  | none =>
    match x.1.asDelete with
    | none => .error "failed to unmarshal update output"
    | some _ => .ok cr

/-- Filesystem effects of the workspace materializer, in program order. -/
inductive FsEvent where
  | mkdirTemp
  | writeConfig
  | cmdRun
  | removeAll
deriving Repr, DecidableEq

/-- Fault injection for the workspace steps of `execute`: whether
`os.MkdirTemp` fails and whether creating/writing the configuration file
fails. -/
structure WorkspaceFaults where
  mkdirFails : Bool
  writeFails : Bool
deriving Repr, DecidableEq

/-- `execute`: create the ephemeral directory (returning early on
failure), register the deferred `os.RemoveAll`, write the configuration
file (returning early on failure, with the deferred removal running), or
run the command and return its result, the deferred removal running last.
The event list records the successful filesystem effects in order; `res`
is the result the command executor would give. -/
def execute (f : WorkspaceFaults) (res : CmdResult) :
    (RawOutput × Option String) × List FsEvent :=
  if f.mkdirFails then
    ((RawOutput.empty, some "failed to create tmp dir"), [])
  else if f.writeFails then
    ((RawOutput.empty, some "failed to create config file"), [.mkdirTemp, .removeAll])
  else
    ((res.output, res.err), [.mkdirTemp, .writeConfig, .cmdRun, .removeAll])

/-- Whether the ephemeral directory exists after replaying the recorded
filesystem events. -/
def dirExistsAfter (events : List FsEvent) : Bool :=
  events.foldl
    (fun ex e =>
      match e with
      | .mkdirTemp => true
      | .removeAll => false
      | _ => ex)
    false

/-- The process-global environment the controller can reach through the
`os` package; only the `PATH` variable is ever touched. -/
structure GlobalEnv where
  path : String
deriving Repr, DecidableEq

/-- The `external` client state used by `execPcluster`. -/
structure External where
  dir : String
  env : List String
  path : String
deriving Repr, DecidableEq

/-- `execPcluster`: first calls `os.Setenv("PATH", c.path)` — mutating the
process-global environment — then runs `pcluster` through the executor
with the per-invocation `c.env` and `c.dir`; returns the command result
together with the global environment after the call. -/
def execPcluster (c : External) (g : GlobalEnv) (res : CmdResult) :
    (RawOutput × Option String) × GlobalEnv :=
  ((res.output, res.err), { g with path := c.path })

/-- Argument list of the describe invocation in `Observe`. -/
def describeArgs (cr : Cluster) : List String :=
  ["describe-cluster", "--cluster-name", cr.name]

/-- Argument list built by `Create`. -/
def createArgs (cr : Cluster) : List String :=
  ["create-cluster", "--cluster-configuration", clusterConfigFileName,
   "--cluster-name", cr.name, "--region", cr.forProvider.region]

/-- Argument list built by `Update`. -/
def updateArgs (cr : Cluster) : List String :=
  ["update-cluster", "--cluster-configuration", clusterConfigFileName,
   "--cluster-name", cr.name, "--region", cr.forProvider.region]

/-- Argument list built by `Delete`. -/
def deleteArgs (cr : Cluster) : List String :=
  ["delete-cluster", "--cluster-name", cr.name, "--region", cr.forProvider.region]

/-- Argument list built by `isUpToDate` for the dry-run probe. -/
def dryRunUpdateArgs (cr : Cluster) : List String :=
  ["update-cluster", "--dryrun", "true", "--cluster-name", cr.name,
   "--cluster-configuration", clusterConfigFileName]

/-- Spec-side §6 probe surface (spec-side definition for refinement
against `dryRunUpdateArgs`): the update surface with `--dryrun true`
added. -/
def specProbeArgs (name region file : String) : List String :=
  ["update-cluster", "--cluster-configuration", file, "--cluster-name", name,
   "--region", region, "--dryrun", "true"]

/-- The spec's `ErrorClassification` enumeration (§3). -/
inductive ErrorClassification where
  | notFound
  | upToDate
  | notUpToDate
  | emptyOrUnclassified
deriving Repr, DecidableEq

/-- Spec-side §4.4 classifier (spec-side definition for refinement against
`getErrorStatus`): parse failure propagates (`none`); otherwise the four
rules are evaluated in priority order, first match winning. -/
def classifySpec (cmdOutput : Option ErrorOutput) (resourceName : String) :
    Option ErrorClassification :=
  match cmdOutput with
  | none => none
  | some p =>
    if beginsWith p.message (notFoundMsg resourceName) then
      some .notFound
    else if p.message = errPclusterCliNoChange ∨ beginsWith p.message errPClusterCliInProgress then
      some .upToDate
    else if p.message = errPClusterCliDryRun then
      some .notUpToDate
    else
      some .emptyOrUnclassified

/-- The `(errStatus, error)` pair `getErrorStatus` is expected to produce
for each outcome of the spec-side classifier. -/
def classificationStatus : Option ErrorClassification → ErrStatus × Option String
  | none => ("", some "json unmarshal error")
  | some .notFound => (errStatusNotFound, none)
  | some .upToDate => (errStatusUpToDate, none)
  | some .notUpToDate => (errStatusNotUpToDate, none)
  | some .emptyOrUnclassified => (errStatusEmpty, none)

/-- Sample cluster used by concrete witnesses and counterexamples. -/
def sampleCluster : Cluster :=
  { name := "test"
    forProvider := { region := "us-east-1", clusterConfiguration := "Image: alinux2" }
    atProvider :=
      { clusterName := "", cloudformationStackArn := "", clusterStatus := ""
        lastUpdatedTime := "", scheduler := { schedulerType := "" } }
    ready := .unset }

/-- A decoded describe payload whose status is `CREATE_FAILED`. -/
def createFailedDescribe : DescribeClusterOutput :=
  { outputCluster :=
      { clusterName := "test", cloudformationStackStatus := "CREATE_FAILED"
        cloudformationStackArn := "arn:aws:cloudformation:stack", clusterStatus := "CREATE_FAILED"
        region := "us-east-1", version := "3.1.4", scheduler := { schedulerType := "slurm" } } }

/-- Probe command result whose payload is the no-change sentinel, as a
dry run reports when the configuration is up to date (non-zero exit). -/
def upToDateProbeRes : CmdResult :=
  { output :=
      { nonEmpty := true, asError := some { message := errPclusterCliNoChange }
        asDescribe := none, asCreate := none, asUpdate := none, asDelete := none }
    err := some "exit status 1" }

/-- Observe environment: describe succeeds with `CREATE_FAILED`, probe
reports up to date. -/
def createFailedEnv : ObserveEnv :=
  { describe :=
      { output :=
          { nonEmpty := true, asError := none, asDescribe := some createFailedDescribe
            asCreate := none, asUpdate := none, asDelete := none }
        err := none }
    probe := upToDateProbeRes }

/-- Probe command result with a payload the classifier cannot recognise
(non-zero exit, non-empty output). -/
def unclassifiedProbeRes : CmdResult :=
  { output :=
      { nonEmpty := true, asError := some { message := "access denied" }
        asDescribe := none, asCreate := none, asUpdate := none, asDelete := none }
    err := some "exit status 1" }

/-- A successfully decoded update output reporting `UPDATE_COMPLETE`. -/
def updateCompleteOutput : RawOutput :=
  { nonEmpty := true, asError := none, asDescribe := none, asCreate := none
    asUpdate := some
      { cluster :=
          { clusterName := "test", cloudformationStackStatus := "UPDATE_COMPLETE"
            cloudformationStackArn := "arn:aws:cloudformation:stack"
            clusterStatus := "UPDATE_COMPLETE", region := "us-east-1", version := "3.1.4"
            scheduler := { schedulerType := "slurm" } }
        changeSet := ["queue size"] }
    asDelete := none }

/-- A resource name that itself embeds the absence-message terminator. -/
def ambiguousName : String := "a" ++ sq ++ " does not exist"

/-- The absence message for `ambiguousName`; it also begins with the
absence message of the one-character name `a`. -/
def ambiguousMsg : String := notFoundMsg ambiguousName

/-- Observe environment: the describe command fails and its payload is the
absence message for the sample cluster. -/
def notFoundEnv : ObserveEnv :=
  { describe :=
      { output :=
          { nonEmpty := true, asError := some { message := notFoundMsg "test" }
            asDescribe := none, asCreate := none, asUpdate := none, asDelete := none }
        err := some "exit status 1" }
    probe := { output := RawOutput.empty, err := none } }

/-- The `external` client built for a virtual-env installation. -/
def venvExternal : External :=
  { dir := "", env := ["PATH=/opt/venv/bin:/usr/bin"], path := "/opt/venv/bin:/usr/bin" }

/-- Ambient process environment before any invocation. -/
def baseGlobal : GlobalEnv := { path := "/usr/bin" }

/- ------------------------------------------------------------------ -/
/- Helper lemmas                                                      -/
/- ------------------------------------------------------------------ -/

/-- Extensionality for the embedded strings. -/
theorem str_ext {a b : String} (h : a.data = b.data) : a = b := by
  cases a
  cases b
  exact congrArg String.mk h

/-- `sq` is the one-character list of the quote character. -/
theorem sq_data : sq.data = [sqChar] := rfl

/-- The character-list shape of the absence message, grouped so that the
quote terminating the embedded name is the head of a fixed tail. -/
theorem notFoundMsg_data (x : String) :
    (notFoundMsg x).data =
      "Cluster ".data ++ ([sqChar] ++ (x.data ++ (sqChar :: " does not exist".data))) := by
  simp [notFoundMsg, sq_data]

/-- When a list followed by `c :: t` is a prefix of another list followed
by the same `c :: t` and the second list avoids `c`, the lists are
equal. -/
theorem prefix_append_cons_eq {a b t : List Char} {c : Char} (hb : c ∉ b)
    (h : a ++ (c :: t) <+: b ++ (c :: t)) : a = b := by
  have hlen : a.length ≤ b.length := by
    have hl := h.length_le
    simp only [List.length_append, List.length_cons] at hl
    omega
  rcases Nat.lt_or_ge a.length b.length with hlt | hge
  · exfalso
    have hia : a.length < (a ++ (c :: t)).length := by simp
    have hib : a.length < (b ++ (c :: t)).length := by
      simp only [List.length_append, List.length_cons]
      omega
    have e1 : (a ++ (c :: t))[a.length] = c := by
      rw [List.getElem_append_right (Nat.le_refl a.length)]
      simp
    have e2 : (a ++ (c :: t))[a.length] = (b ++ (c :: t))[a.length] :=
      h.getElem hia
    have e3 : (b ++ (c :: t))[a.length] = b[a.length] :=
      List.getElem_append_left hlt
    have hcb : b[a.length] = c := by rw [← e3, ← e2, e1]
    have hm : b[a.length] ∈ b := List.getElem_mem hlt
    rw [hcb] at hm
    exact hb hm
  · have heq : a.length = b.length := Nat.le_antisymm hlen hge
    have hfull : a ++ (c :: t) = b ++ (c :: t) :=
      h.eq_of_length (by simp [heq])
    exact List.append_cancel_right hfull

/-- Two absence patterns for quote-free names that are both prefixes of
the same message name the same cluster. -/
theorem notFoundMsg_inj (msg x r : String)
    (hx : sqChar ∉ x.data) (hr : sqChar ∉ r.data)
    (h1 : beginsWith msg (notFoundMsg x) = true)
    (h2 : beginsWith msg (notFoundMsg r) = true) : x = r := by
  unfold beginsWith at h1 h2
  rw [List.isPrefixOf_iff_prefix] at h1 h2
  rw [notFoundMsg_data] at h1 h2
  rcases List.prefix_or_prefix_of_prefix h1 h2 with h | h
  · rw [List.prefix_append_right_inj, List.prefix_append_right_inj] at h
    exact str_ext (prefix_append_cons_eq hr h)
  · rw [List.prefix_append_right_inj, List.prefix_append_right_inj] at h
    exact (str_ext (prefix_append_cons_eq hx h)).symm

/-- A successfully decoded error payload never yields a classification
error from `getErrorStatus`. -/
theorem getErrorStatus_some (p : ErrorOutput) (name : String) :
    getErrorStatus (some p) name = ((getErrorStatus (some p) name).1, none) := by
  simp only [getErrorStatus]
  split
  · rfl
  · split
    · rfl
    · split <;> rfl

/- ------------------------------------------------------------------ -/
/- Claims                                                             -/
/- ------------------------------------------------------------------ -/

/-- Claim C1: for every describe payload successfully decoded by
`Observe`, the nine lifecycle status values map to `(exists, available)`
exactly as in the §4.5 table: the three in-progress statuses give
`exists = true` with the Ready condition left unchanged; the two complete
statuses give `exists = true` and set the resource Available;
`CREATE_FAILED` and `DELETE_COMPLETE` give `exists = false`;
`UPDATE_FAILED` and `DELETE_FAILED` give `exists = true` and set the
resource Unavailable. -/
theorem c1_observe_status_table (env : ObserveEnv) (cr : Cluster)
    (d : DescribeClusterOutput) (u : Bool)
    (hd : env.describe.err = none)
    (hdec : env.describe.output.asDescribe = some d)
    (hu : isUpToDateRun env.probe cr.name = (u, none)) :
    (d.outputCluster.clusterStatus = CreateInProgress ∨
        d.outputCluster.clusterStatus = UpdateInProgress ∨
        d.outputCluster.clusterStatus = DeleteInProgress →
      Observe env cr =
        (.ok ({ resourceExists := true, resourceUpToDate := u },
          setStatus d.outputCluster cr), true) ∧
      (setStatus d.outputCluster cr).ready = cr.ready) ∧
    (d.outputCluster.clusterStatus = CreateComplete ∨
        d.outputCluster.clusterStatus = UpdateComplete →
      Observe env cr =
        (.ok ({ resourceExists := true, resourceUpToDate := u },
          setStatus d.outputCluster { cr with ready := .available }), true) ∧
      (setStatus d.outputCluster { cr with ready := .available }).ready = .available) ∧
    (d.outputCluster.clusterStatus = CreateFailed ∨
        d.outputCluster.clusterStatus = DeleteComplete →
      Observe env cr =
        (.ok ({ resourceExists := false, resourceUpToDate := u },
          setStatus d.outputCluster cr), true)) ∧
    (d.outputCluster.clusterStatus = UpdateFailed ∨
        d.outputCluster.clusterStatus = DeleteFailed →
      Observe env cr =
        (.ok ({ resourceExists := true, resourceUpToDate := u },
          setStatus d.outputCluster { cr with ready := .unavailable }), true) ∧
      (setStatus d.outputCluster { cr with ready := .unavailable }).ready = .unavailable) := by
  refine ⟨?_, ?_, ?_, ?_⟩
  · rintro (h | h | h) <;>
      · refine ⟨?_, rfl⟩
        unfold Observe
        rw [hd, hdec, hu]
        dsimp only
        rw [h]
        rw [if_pos (by decide)]
  · rintro (h | h) <;>
      · refine ⟨?_, rfl⟩
        unfold Observe
        rw [hd, hdec, hu]
        dsimp only
        rw [h]
        rw [if_neg (by decide), if_pos (by decide)]
  · rintro (h | h) <;>
      · unfold Observe
        rw [hd, hdec, hu]
        dsimp only
        rw [h]
        rw [if_neg (by decide), if_neg (by decide), if_pos (by decide)]
  · rintro (h | h) <;>
      · refine ⟨?_, rfl⟩
        unfold Observe
        rw [hd, hdec, hu]
        dsimp only
        rw [h]
        rw [if_neg (by decide), if_neg (by decide), if_neg (by decide),
          if_pos (by decide)]

/-- Claim C1 witness: concrete success environment, `CREATE_FAILED`
branch of the table. -/
theorem c1_status_table_witness :
    Observe createFailedEnv sampleCluster =
      (.ok ({ resourceExists := false, resourceUpToDate := true },
        setStatus createFailedDescribe.outputCluster sampleCluster), true) :=
  (c1_observe_status_table createFailedEnv sampleCluster createFailedDescribe true
    rfl rfl (by decide)).2.2.1 (Or.inl rfl)

/-- Claim C2 counterexample: a dry-run probe run that exits non-zero with
a payload the classifier maps to `EmptyOrUnclassified` makes `isUpToDate`
return `(false, nil)` — silently "not up to date" — not a propagated
failure as the claim states. -/
theorem c2_silent_not_up_to_date_counterexample :
    (getErrorStatus (some { message := "access denied" }) "test").1 = errStatusEmpty ∧
    isUpToDateRun unclassifiedProbeRes "test" = (false, none) := by
  exact ⟨by decide, by decide⟩

/-- Claim C2 (amended): on a non-zero exit with non-empty output, a
payload decode failure propagates; a payload classified `UpToDate` yields
`(true, nil)`; every other classification — `NotUpToDate`, but also
`NotFound` and `EmptyOrUnclassified` — yields `(false, nil)` with no
error; a zero exit yields `(false, nil)`; a non-zero exit with empty
output propagates the exit error. -/
theorem c2_probe_error_classification (res : CmdResult) (name : String) :
    (res.err.isSome = true → res.output.nonEmpty = true →
      (res.output.asError = none →
        isUpToDateRun res name = (false, some "json unmarshal error")) ∧
      (∀ p, res.output.asError = some p →
        ((getErrorStatus (some p) name).1 = errStatusUpToDate →
          isUpToDateRun res name = (true, none)) ∧
        ((getErrorStatus (some p) name).1 ≠ errStatusUpToDate →
          isUpToDateRun res name = (false, none)))) ∧
    (res.err = none → isUpToDateRun res name = (false, none)) ∧
    (res.output.nonEmpty = false → isUpToDateRun res name = (false, res.err)) := by
  refine ⟨?_, ?_, ?_⟩
  · intro he hn
    constructor
    · intro ha
      unfold isUpToDateRun
      rw [he, hn, ha]
      simp [getErrorStatus]
    · intro p hp
      constructor
      · intro hs
        unfold isUpToDateRun
        rw [he, hn, hp, getErrorStatus_some]
        simp [hs]
      · intro hs
        unfold isUpToDateRun
        rw [he, hn, hp, getErrorStatus_some]
        simp [hs]
  · intro he
    unfold isUpToDateRun
    rw [he]
    simp
  · intro hn
    unfold isUpToDateRun
    rw [hn]
    simp

/-- Claim C2 witness: concrete probe run with the no-change sentinel. -/
theorem c2_probe_error_witness :
    isUpToDateRun upToDateProbeRes "test" = (true, none) :=
  (((c2_probe_error_classification upToDateProbeRes "test").1 rfl rfl).2
    { message := errPclusterCliNoChange } rfl).1 (by decide)

/-- Claim C3 counterexample: describe succeeds with `CREATE_FAILED` (an
`exists = false` status) yet the probe is still invoked (flag `true`) and
its `UpToDate` outcome is returned: the observation has
`exists = false` together with `upToDate = true`. -/
theorem c3_probe_for_nonexistent_counterexample :
    (Observe createFailedEnv sampleCluster).2 = true ∧
    (Observe createFailedEnv sampleCluster).1 =
      .ok ({ resourceExists := false, resourceUpToDate := true },
        { sampleCluster with atProvider :=
            { clusterName := "test"
              cloudformationStackArn := "arn:aws:cloudformation:stack"
              clusterStatus := "CREATE_FAILED", lastUpdatedTime := ""
              scheduler := { schedulerType := "slurm" } } }) := by
  exact ⟨by decide, by rfl⟩

/-- Claim C3 (amended): `Observe` invokes the up-to-date probe exactly
when the describe command succeeds and its payload decodes — regardless
of the `exists` value of the observation it then returns, so an
observation with `exists = false` can carry `upToDate = true`. -/
theorem c3_probe_invocation_condition (env : ObserveEnv) (cr : Cluster) :
    (Observe env cr).2 =
      (env.describe.err.isNone && env.describe.output.asDescribe.isSome) := by
  unfold Observe
  cases hd : env.describe.err with
  | some e =>
    dsimp only
    split <;> rfl
  | none =>
    dsimp only
    cases hdec : env.describe.output.asDescribe with
    | none => rfl
    | some d =>
      dsimp only
      rcases hu : isUpToDateRun env.probe cr.name with ⟨u, eo⟩
      cases eo <;> rfl

/-- Claim C4: `getErrorStatus` refines the §4.4 classifier: a decode
failure propagates, and otherwise the absence pattern, the no-change /
in-progress sentinels, the dry-run sentinel and the default are evaluated
in exactly this priority order, first match winning. -/
theorem c4_classifier_refines_spec (out : Option ErrorOutput) (name : String) :
    getErrorStatus out name = classificationStatus (classifySpec out name) := by
  cases out with
  | none => rfl
  | some p =>
    simp only [getErrorStatus, classifySpec]
    by_cases h1 : beginsWith p.message (notFoundMsg name) = true
    · simp [h1, classificationStatus]
    · by_cases h2 : p.message = errPclusterCliNoChange ∨
          beginsWith p.message errPClusterCliInProgress = true
      · simp [h1, h2, classificationStatus]
      · by_cases h3 : p.message = errPClusterCliDryRun
        · rw [h3] at h1 h2
          simp [h1, h2, h3, classificationStatus]
        · simp [h1, h2, h3, classificationStatus]

/-- Claim C5: when the describe command errors, a payload classified
`NotFound` makes `Observe` return `exists = false` with no error, while
any other classification — including a decode failure, whose
classification is the zero value — makes `Observe` return the propagated
failure. -/
theorem c5_observe_error_paths (env : ObserveEnv) (cr : Cluster) (e : String)
    (he : env.describe.err = some e) :
    ((getErrorStatus env.describe.output.asError cr.name).1 = errStatusNotFound →
      Observe env cr =
        (.ok ({ resourceExists := false, resourceUpToDate := false }, cr), false)) ∧
    ((getErrorStatus env.describe.output.asError cr.name).1 ≠ errStatusNotFound →
      Observe env cr =
        (.error ("failed to run pcluster command: " ++ e), false)) := by
  constructor
  · intro h
    unfold Observe
    rw [he]
    simp [h]
  · intro h
    unfold Observe
    rw [he]
    simp [h]

/-- Claim C5 witness: concrete absence payload. -/
theorem c5_observe_error_witness :
    Observe notFoundEnv sampleCluster =
      (.ok ({ resourceExists := false, resourceUpToDate := false },
        sampleCluster), false) :=
  (c5_observe_error_paths notFoundEnv sampleCluster "exit status 1" rfl).1 (by decide)

/-- Claim C6 counterexample: a successful `Update` whose decoded payload
carries `UPDATE_COMPLETE` returns the cluster unchanged — the decoded
lifecycle fields are not written back onto the status, contradicting the
claim that Update writes its status fields back. -/
theorem c6_update_no_writeback_counterexample :
    UpdateOp (updateCompleteOutput, none) sampleCluster = .ok sampleCluster ∧
    sampleCluster.atProvider.clusterStatus = "" ∧
    (updateCompleteOutput.asUpdate.map fun w => w.cluster.clusterStatus) =
      some "UPDATE_COMPLETE" := by
  exact ⟨by rfl, rfl, rfl⟩

/-- Claim C6 (amended): `Create`, on success, decodes the create schema
and writes the lifecycle fields back; `Update` and `Delete` decode their
output schemas (failing on decode errors) but write nothing back; on any
failure — executor error or decode failure — each operation returns the
error with no status mutation. -/
theorem c6_operation_writeback (x : RawOutput × Option String) (cr : Cluster) :
    (∀ e, x.2 = some e →
      CreateOp x cr = .error e ∧ UpdateOp x cr = .error e ∧
      DeleteOp x cr = .error ("failed to delete using pcluster cli: " ++ e)) ∧
    (x.2 = none →
      (∀ c, x.1.asCreate = some c → CreateOp x cr = .ok (setStatus c.cluster cr)) ∧
      (x.1.asCreate = none → CreateOp x cr = .error "failed to unmarshal create output") ∧
      (∀ w, x.1.asUpdate = some w → UpdateOp x cr = .ok cr) ∧
      (x.1.asUpdate = none → UpdateOp x cr = .error "failed to unmarshal update output") ∧
      (∀ dl, x.1.asDelete = some dl → DeleteOp x cr = .ok cr) ∧
      (x.1.asDelete = none → DeleteOp x cr = .error "failed to unmarshal update output")) := by
  constructor
  · intro e he
    refine ⟨?_, ?_, ?_⟩ <;> simp [CreateOp, UpdateOp, DeleteOp, he]
  · intro hn
    refine ⟨?_, ?_, ?_, ?_, ?_, ?_⟩
    · intro c hc
      simp [CreateOp, hn, hc]
    · intro hc
      simp [CreateOp, hn, hc]
    · intro w hw
      simp [UpdateOp, hn, hw]
    · intro hw
      simp [UpdateOp, hn, hw]
    · intro dl hdl
      simp [DeleteOp, hn, hdl]
    · intro hdl
      simp [DeleteOp, hn, hdl]

/-- Claim C6 witness: the successful update run of the counterexample,
through the amended theorem. -/
theorem c6_operation_writeback_witness :
    UpdateOp (updateCompleteOutput, none) sampleCluster = .ok sampleCluster :=
  ((c6_operation_writeback (updateCompleteOutput, none) sampleCluster).2 rfl).2.2.1 _ rfl

/-- Claim C7: for every fault configuration and command result, the
ephemeral directory no longer exists after `execute` returns, and when
directory creation or the configuration write fails the result is the
workspace I/O error and the external command is never run. -/
theorem c7_workspace_lifecycle (f : WorkspaceFaults) (res : CmdResult) :
    dirExistsAfter (execute f res).2 = false ∧
    (f.mkdirFails = true →
      execute f res = ((RawOutput.empty, some "failed to create tmp dir"), [])) ∧
    (f.mkdirFails = false → f.writeFails = true →
      execute f res =
        ((RawOutput.empty, some "failed to create config file"),
          [.mkdirTemp, .removeAll])) ∧
    ((f.mkdirFails = true ∨ f.writeFails = true) →
      ((execute f res).2.contains FsEvent.cmdRun) = false ∧
      ((execute f res).1.2).isSome = true) := by
  by_cases h1 : f.mkdirFails = true
  · simp [execute, h1, dirExistsAfter]
  · by_cases h2 : f.writeFails = true
    · simp [execute, h1, h2, dirExistsAfter]
    · simp [execute, h1, h2, dirExistsAfter]

/-- Claim C7 witness: a failing configuration write. -/
theorem c7_workspace_lifecycle_witness :
    ((execute { mkdirFails := false, writeFails := true }
        { output := RawOutput.empty, err := none }).2.contains FsEvent.cmdRun) = false ∧
    ((execute { mkdirFails := false, writeFails := true }
        { output := RawOutput.empty, err := none }).1.2).isSome = true :=
  (c7_workspace_lifecycle { mkdirFails := false, writeFails := true }
    { output := RawOutput.empty, err := none }).2.2.2 (Or.inr rfl)

/-- Claim C8 counterexample: the dry-run probe argument list is not the
§6 probe surface — it omits the `--region` flag entirely. -/
theorem c8_probe_args_counterexample :
    ((dryRunUpdateArgs sampleCluster ==
        specProbeArgs "test" "us-east-1" clusterConfigFileName) = false) ∧
    ((dryRunUpdateArgs sampleCluster).contains "--region") = false ∧
    ((specProbeArgs "test" "us-east-1" clusterConfigFileName).contains "--region") = true := by
  exact ⟨by decide, by decide, by decide⟩

/-- Claim C8 (amended): the describe, create, update and delete
invocations use exactly the §6 literal surfaces with the resource name
passed unchanged, and the probe passes `--dryrun true`, the name and the
configuration file but no `--region` flag. -/
theorem c8_command_surface (cr : Cluster) :
    describeArgs cr = ["describe-cluster", "--cluster-name", cr.name] ∧
    createArgs cr = ["create-cluster", "--cluster-configuration", clusterConfigFileName,
      "--cluster-name", cr.name, "--region", cr.forProvider.region] ∧
    updateArgs cr = ["update-cluster", "--cluster-configuration", clusterConfigFileName,
      "--cluster-name", cr.name, "--region", cr.forProvider.region] ∧
    deleteArgs cr = ["delete-cluster", "--cluster-name", cr.name, "--region",
      cr.forProvider.region] ∧
    dryRunUpdateArgs cr = ["update-cluster", "--dryrun", "true", "--cluster-name",
      cr.name, "--cluster-configuration", clusterConfigFileName] ∧
    cr.name ∈ describeArgs cr ∧ cr.name ∈ createArgs cr ∧ cr.name ∈ updateArgs cr ∧
    cr.name ∈ deleteArgs cr ∧ cr.name ∈ dryRunUpdateArgs cr := by
  refine ⟨rfl, rfl, rfl, rfl, rfl, ?_, ?_, ?_, ?_, ?_⟩ <;>
    simp [describeArgs, createArgs, updateArgs, deleteArgs, dryRunUpdateArgs]

/-- Claim C9 (code-bug evidence): `execPcluster` overwrites the
process-global `PATH` with the client's search path before every
invocation, so the global environment after the call differs from the
ambient one — contradicting the claim that the environment reaches the
executor only as per-invocation arguments. -/
theorem c9_global_path_mutation :
    (execPcluster venvExternal baseGlobal
        { output := RawOutput.empty, err := none }).2 =
      { path := "/opt/venv/bin:/usr/bin" } ∧
    ((execPcluster venvExternal baseGlobal
        { output := RawOutput.empty, err := none }).2 == baseGlobal) = false := by
  exact ⟨rfl, by decide⟩

/-- Claim C10 counterexample: with the resource name
`a' does not exist`, the absence message for that name also begins with
the absence pattern of the different name `a`, yet `getErrorStatus`
returns `NotFound`, not `EmptyOrUnclassified`. -/
theorem c10_ambiguous_name_counterexample :
    beginsWith ambiguousMsg (notFoundMsg "a") = true ∧
    (("a" : String) == ambiguousName) = false ∧
    getErrorStatus (some { message := ambiguousMsg }) ambiguousName =
      (errStatusNotFound, none) ∧
    (errStatusNotFound == errStatusEmpty) = false := by
  exact ⟨by decide, by decide, by decide, by decide⟩

/-- Claim C10 (amended): for names free of the quote character (so that
the absence pattern parses unambiguously — the counterexample shows the
restriction is needed), a message that begins with the absence pattern of
a name `x` different from the resource name classifies as
`EmptyOrUnclassified`, not `NotFound`. -/
theorem c10_notfound_name_sensitivity (msg x r : String)
    (hpre : beginsWith msg (notFoundMsg x) = true)
    (hx : sqChar ∉ x.data) (hr : sqChar ∉ r.data) (hne : x ≠ r) :
    getErrorStatus (some { message := msg }) r = (errStatusEmpty, none) := by
  have hnf : beginsWith msg (notFoundMsg r) = false := by
    cases hb : beginsWith msg (notFoundMsg r) with
    | false => rfl
    | true => exact absurd (notFoundMsg_inj msg x r hx hr hpre hb) hne
  have hc : "Cluster ".data <+: msg.data := by
    have h1 := hpre
    unfold beginsWith at h1
    rw [List.isPrefixOf_iff_prefix] at h1
    rw [notFoundMsg_data] at h1
    exact List.IsPrefix.trans (List.prefix_append _ _) h1
  have hnc : ¬(msg = errPclusterCliNoChange) := by
    intro hmsg
    rw [hmsg] at hc
    exact absurd hc (by decide)
  have hip : beginsWith msg errPClusterCliInProgress = false := by
    cases hb : beginsWith msg errPClusterCliInProgress with
    | false => rfl
    | true =>
      exfalso
      have h2 : errPClusterCliInProgress.data <+: msg.data := by
        unfold beginsWith at hb
        rw [List.isPrefixOf_iff_prefix] at hb
        exact hb
      have hcl : "Cluster ".data <+: errPClusterCliInProgress.data :=
        List.prefix_of_prefix_length_le hc h2 (by decide)
      exact absurd hcl (by decide)
  have hdr : ¬(msg = errPClusterCliDryRun) := by
    intro hmsg
    rw [hmsg] at hc
    exact absurd hc (by decide)
  simp only [getErrorStatus]
  simp [hnf, hnc, hip, hdr]

/-- Claim C10 witness: two ordinary distinct names. -/
theorem c10_name_sensitivity_witness :
    getErrorStatus (some { message := notFoundMsg "alpha" }) "beta" =
      (errStatusEmpty, none) :=
  c10_notfound_name_sensitivity (notFoundMsg "alpha") "alpha" "beta"
    (by decide) (by decide) (by decide) (by decide)

end AwsPcluster
